import Mathlib

/-
Verification of the Drizzle schema codec in drop-cards
(src/composables/useSchema.ts).  The TypeScript source is shallowly
embedded below: the schema model (Column / Table / Relation), the
string/comment-aware scanner primitives (scanToMatching,
splitTopLevelComma), the generator (exportToDrizzle) and the parser
(importFromDrizzle) with its regex searches modelled as hand-rolled
matchers over character lists.  Mutable module-level id counters are
modelled as explicit state passed into and returned from the parser.
-/

/-! ## Schema model (src/types/schema, as used by useSchema.ts) -/

structure Column where
  id : String
  name : String
  type : String
  nullable : Bool
  primaryKey : Bool
  unique : Bool
  autoIncrement : Bool
deriving DecidableEq

structure Position where
  x : Int
  y : Int
deriving DecidableEq

structure Table where
  id : String
  name : String
  position : Position
  width : Nat
  columns : List Column
deriving DecidableEq

structure Relation where
  id : String
  fromTableId : String
  fromColumnId : String
  toTableId : String
  toColumnId : String
  type : String
deriving DecidableEq

structure SchemaState where
  tables : List Table
  relations : List Relation
deriving DecidableEq

/-- The module-level mutable id counters of useSchema.ts. -/
structure Counters where
  tableCounter : Nat
  columnCounter : Nat
  relationCounter : Nat
deriving DecidableEq

/-! ## Small string helpers (JS string primitives used by the codec) -/

/-- JS single quote, written via its code point. -/
def singleQuote : Char := Char.ofNat 39

/-- JS double quote. -/
def doubleQuote : Char := Char.ofNat 34

/-- JS template-literal backquote. -/
def backQuote : Char := Char.ofNat 96

/-- The three JS quote characters recognized by the scanner. -/
def isQuoteChar (c : Char) : Bool := c = singleQuote || c = doubleQuote || c = backQuote

/-- JS `String.prototype.trim` (ASCII whitespace suffices for this codec). -/
def trimStr (s : String) : String :=
  String.mk (((s.data.dropWhile Char.isWhitespace).reverse.dropWhile Char.isWhitespace).reverse)

/-- JS `String.prototype.toLowerCase` (ASCII). -/
def toLowerStr (s : String) : String := String.mk (s.data.map Char.toLower)

/-- Leading-prefix test on character lists. -/
def listIsPrefixOf : List Char → List Char → Bool
  | [], _ => true
  | _ :: _, [] => false
  | p :: ps, c :: cs => p = c && listIsPrefixOf ps cs

/-- Substring occurrence test on character lists. -/
def listContains (pat : List Char) : List Char → Bool
  | [] => listIsPrefixOf pat []
  | c :: rest => listIsPrefixOf pat (c :: rest) || listContains pat rest

/-- JS `String.prototype.includes` / regex substring test. -/
def containsSubstr (s pat : String) : Bool := listContains pat.data s.data

/-- JS `String.prototype.endsWith`. -/
def endsWithStr (s pat : String) : Bool := listIsPrefixOf pat.data.reverse s.data.reverse

/-- JS `String.prototype.slice(0, -n)` (drop the last `n` characters). -/
def dropRightStr (s : String) (n : Nat) : String :=
  String.mk (s.data.take (s.data.length - n))

/-- JS `text.slice(a, b)` on a character list. -/
def sliceStr (cs : List Char) (a b : Nat) : String := String.mk ((cs.drop a).take (b - a))

/-! ## Scanner: scanToMatching (useSchema.ts lines 862-924) -/

/-- Main loop of `scanToMatching`: walks the characters after the opening
delimiter carrying the absolute index `i`, the signed depth counter and the
string/comment state flags, exactly as the TypeScript `for` loop does.
`fuel` only bounds the recursion; every step consumes at least one
character, so seeding it with the length of the character list makes the
zero-fuel branch unreachable. -/
def scanAux (openChar closeChar : Char) (fuel : Nat) (cs : List Char) (i : Nat) (depth : Int)
    (inString : Option Char) (escaped inLineComment inBlockComment : Bool) : Option Nat :=
  match fuel, cs with
  | _, [] => none
  | 0, _ :: _ => none
  | fuel + 1, ch :: rest =>
    let next : Option Char := rest.head?
    if inLineComment then
      scanAux openChar closeChar fuel rest (i + 1) depth inString escaped (ch != '\n') inBlockComment
    else if inBlockComment then
      if ch = '*' && next = some '/' then
        scanAux openChar closeChar fuel rest.tail (i + 2) depth inString escaped inLineComment false
      else
        scanAux openChar closeChar fuel rest (i + 1) depth inString escaped inLineComment true
    else
      match inString with
      | some q =>
        if escaped then
          scanAux openChar closeChar fuel rest (i + 1) depth (some q) false inLineComment inBlockComment
        else if ch = '\\' then
          scanAux openChar closeChar fuel rest (i + 1) depth (some q) true inLineComment inBlockComment
        else if ch = q then
          scanAux openChar closeChar fuel rest (i + 1) depth none false inLineComment inBlockComment
        else
          scanAux openChar closeChar fuel rest (i + 1) depth (some q) false inLineComment inBlockComment
      | none =>
        if ch = '/' && next = some '/' then
          scanAux openChar closeChar fuel rest.tail (i + 2) depth none escaped true inBlockComment
        else if ch = '/' && next = some '*' then
          scanAux openChar closeChar fuel rest.tail (i + 2) depth none escaped inLineComment true
        else if isQuoteChar ch then
          scanAux openChar closeChar fuel rest (i + 1) depth (some ch) escaped inLineComment inBlockComment
        else
          let depth2 :=
            if ch = openChar then depth + 1
            else if ch = closeChar then depth - 1
            else depth
          if depth2 = 0 then some i
          else scanAux openChar closeChar fuel rest (i + 1) depth2 none escaped inLineComment inBlockComment

/-- `scanToMatching` on a character list: checks the opening delimiter and
starts the scan with depth 1, returning the absolute index of the matching
closing delimiter, or `none` when the text ends first. -/
def scanToMatchingChars (cs : List Char) (openPos : Nat) (openChar closeChar : Char) :
    Option Nat :=
  if cs.get? openPos = some openChar then
    let rest := cs.drop (openPos + 1)
    scanAux openChar closeChar rest.length rest (openPos + 1) 1 none false false false
  else none

/-- `scanToMatching(source, openPos, openChar, closeChar)` of useSchema.ts. -/
def scanToMatching (source : String) (openPos : Nat) (openChar closeChar : Char) :
    Option Nat :=
  scanToMatchingChars source.data openPos openChar closeChar

/-! ## Scanner: splitTopLevelComma (useSchema.ts lines 926-1000) -/

/-- Main loop of `splitTopLevelComma`: `acc` holds the characters of the
current piece in reverse (mirroring `source.slice(start, i)`), the three
depth counters are clamped at zero via `Math.max(0, d - 1)` (natural
subtraction), and a piece is emitted at each comma seen at depth zero
outside strings and comments; pieces are trimmed and empty pieces are
dropped, as is a trailing empty piece. -/
def splitAux (fuel : Nat) (cs : List Char) (acc : List Char) (dp db dk : Nat)
    (inString : Option Char) (escaped inLineComment inBlockComment : Bool) : List String :=
  match fuel, cs with
  | _, [] =>
    let last := trimStr (String.mk acc.reverse)
    if last = "" then [] else [last]
  | 0, _ :: _ => []
  | fuel + 1, ch :: rest =>
    let next : Option Char := rest.head?
    if inLineComment then
      splitAux fuel rest (ch :: acc) dp db dk inString escaped (ch != '\n') inBlockComment
    else if inBlockComment then
      if ch = '*' && next = some '/' then
        splitAux fuel rest.tail ('/' :: ch :: acc) dp db dk inString escaped inLineComment false
      else
        splitAux fuel rest (ch :: acc) dp db dk inString escaped inLineComment true
    else
      match inString with
      | some q =>
        if escaped then
          splitAux fuel rest (ch :: acc) dp db dk (some q) false inLineComment inBlockComment
        else if ch = '\\' then
          splitAux fuel rest (ch :: acc) dp db dk (some q) true inLineComment inBlockComment
        else if ch = q then
          splitAux fuel rest (ch :: acc) dp db dk none false inLineComment inBlockComment
        else
          splitAux fuel rest (ch :: acc) dp db dk (some q) false inLineComment inBlockComment
      | none =>
        if ch = '/' && next = some '/' then
          splitAux fuel rest.tail ('/' :: ch :: acc) dp db dk none escaped true inBlockComment
        else if ch = '/' && next = some '*' then
          splitAux fuel rest.tail ('*' :: ch :: acc) dp db dk none escaped inLineComment true
        else if isQuoteChar ch then
          splitAux fuel rest (ch :: acc) dp db dk (some ch) escaped inLineComment inBlockComment
        else
          let dp2 := if ch = '(' then dp + 1 else if ch = ')' then dp - 1 else dp
          let db2 := if ch = '{' then db + 1 else if ch = '}' then db - 1 else db
          let dk2 := if ch = '[' then dk + 1 else if ch = ']' then dk - 1 else dk
          if ch = ',' && dp2 = 0 && db2 = 0 && dk2 = 0 then
            let piece := trimStr (String.mk acc.reverse)
            if piece = "" then
              splitAux fuel rest [] dp2 db2 dk2 none escaped inLineComment inBlockComment
            else
              piece :: splitAux fuel rest [] dp2 db2 dk2 none escaped inLineComment inBlockComment
          else
            splitAux fuel rest (ch :: acc) dp2 db2 dk2 none escaped inLineComment inBlockComment
/-- `splitTopLevelComma(source)` of useSchema.ts. -/
def splitTopLevelComma (source : String) : List String :=
  splitAux source.data.length source.data [] 0 0 0 none false false false

/-! ## Generator: exportToDrizzle (useSchema.ts lines 656-801) -/

/-- `mapColumnTypeToDrizzle(type)` (useSchema.ts lines 657-668): internal
type name to Drizzle keyword, with a `needsLength` flag for varchar and a
`text` fallback for unknown types. -/
def mapColumnTypeToDrizzle (type : String) : String × Bool :=
  if type = "integer" then ("integer", false)
  else if type = "varchar" then ("varchar", true)
  else if type = "text" then ("text", false)
  else if type = "boolean" then ("boolean", false)
  else if type = "timestamp" then ("timestamp", false)
  else if type = "date" then ("date", false)
  else if type = "json" then ("jsonb", false)
  else ("text", false)

/-- `tableName.replace(/[^a-zA-Z0-9]/g, '_')` (useSchema.ts line 681). -/
def sanitizeVarName (s : String) : String :=
  String.mk (s.data.map (fun c => if c.isAlpha || c.isDigit then c else '_'))

/-- `v.charAt(0).toLowerCase() + v.slice(1)` (used for relation field names). -/
def lowerFirstChar (s : String) : String :=
  match s.data with
  | [] => ""
  | c :: rest => String.mk (c.toLower :: rest)

/-- The `modifiers` array built for one column (useSchema.ts lines 701-712):
`.primaryKey()` is pushed first (unless `autoIncrement` already implies it),
then `.notNull()`, then `.unique()`. -/
def exportModifiers (column : Column) : List String :=
  (if column.primaryKey && !column.autoIncrement then [".primaryKey()"] else []) ++
  (if !column.nullable then [".notNull()"] else []) ++
  (if column.unique then [".unique()"] else [])

/-- One generated column definition, without the trailing `,\n`
(useSchema.ts lines 686-714). -/
def genColumnDef (column : Column) : String :=
  let columnName := column.name
  let drizzleTypeInfo := mapColumnTypeToDrizzle column.type
  let base :=
    if column.autoIncrement && drizzleTypeInfo.1 = "integer" then "serial"
    else if drizzleTypeInfo.2 && drizzleTypeInfo.1 = "varchar" then
      "varchar('" ++ columnName ++ "', \x7b length: 255 \x7d)"
    else
      drizzleTypeInfo.1 ++ "('" ++ columnName ++ "')"
  "  " ++ columnName ++ ": " ++ base ++ String.join (exportModifiers column)

/-- One generated `pgTable` declaration (useSchema.ts lines 679-718). -/
def genTableDef (table : Table) : String :=
  let tableVarName := sanitizeVarName table.name
  "export const " ++ tableVarName ++ " = pgTable('" ++ table.name ++ "', \x7b\n" ++
    String.join (table.columns.map (fun c => genColumnDef c ++ ",\n")) ++
    "\x7d)\n"

/-- One outgoing relation entry of a relations block (useSchema.ts lines
747-770); the empty string models the early `return` of the `forEach`
callback when a table or column cannot be found. -/
def genOutgoingRelation (tables : List Table) (tableVarMap : List (String × String))
    (table : Table) (tableVarName : String) (relation : Relation) : String :=
  match tables.find? (fun t => t.id = relation.toTableId) with
  | none => ""
  | some toTable =>
    match List.lookup relation.toTableId tableVarMap with
    | none => ""
    | some toTableVar =>
      match table.columns.find? (fun c => c.id = relation.fromColumnId),
            toTable.columns.find? (fun c => c.id = relation.toColumnId) with
      | some fromColumn, some toColumn =>
        let relationName :=
          lowerFirstChar toTableVar ++ (if relation.type = "many-to-many" then "s" else "")
        if relation.type = "one-to-one" then
          "  " ++ relationName ++ ": one(" ++ toTableVar ++ ", \x7b\n" ++
          "    fields: [" ++ tableVarName ++ "." ++ fromColumn.name ++ "],\n" ++
          "    references: [" ++ toTableVar ++ "." ++ toColumn.name ++ "],\n" ++
          "  \x7d),\n"
        else
          "  " ++ relationName ++ ": many(" ++ toTableVar ++ "),\n"
      | _, _ => ""

/-- One incoming relation entry of a relations block (useSchema.ts lines
773-793). -/
def genIncomingRelation (tables : List Table) (tableVarMap : List (String × String))
    (table : Table) (tableVarName : String) (relation : Relation) : String :=
  match tables.find? (fun t => t.id = relation.fromTableId) with
  | none => ""
  | some fromTable =>
    match List.lookup relation.fromTableId tableVarMap with
    | none => ""
    | some fromTableVar =>
      match fromTable.columns.find? (fun c => c.id = relation.fromColumnId),
            table.columns.find? (fun c => c.id = relation.toColumnId) with
      | some fromColumn, some toColumn =>
        let relationName := lowerFirstChar fromTableVar
        if relation.type = "one-to-one" || relation.type = "one-to-many" then
          "  " ++ relationName ++ ": one(" ++ fromTableVar ++ ", \x7b\n" ++
          "    fields: [" ++ tableVarName ++ "." ++ toColumn.name ++ "],\n" ++
          "    references: [" ++ fromTableVar ++ "." ++ fromColumn.name ++ "],\n" ++
          "  \x7d),\n"
        else ""
      | _, _ => ""

/-- The relations block emitted for one table, empty when the table has no
outgoing and no incoming relations (useSchema.ts lines 736-797). -/
def genRelationsBlock (tables : List Table) (relations : List Relation)
    (tableVarMap : List (String × String)) (table : Table) : String :=
  let tableVarName := (List.lookup table.id tableVarMap).getD ""
  let outgoingRelations := relations.filter (fun r => r.fromTableId = table.id)
  let incomingRelations := relations.filter (fun r => r.toTableId = table.id)
  if outgoingRelations.length > 0 || incomingRelations.length > 0 then
    "export const " ++ tableVarName ++ "Relations = relations(" ++ tableVarName ++
      ", (\x7b one, many \x7d) => (\x7b\n" ++
      String.join (outgoingRelations.map
        (genOutgoingRelation tables tableVarMap table tableVarName)) ++
      String.join (incomingRelations.map
        (genIncomingRelation tables tableVarMap table tableVarName)) ++
      "\x7d))\n\n"
  else ""

/-- `exportToDrizzle()` (useSchema.ts lines 671-801): header imports, the
table declarations joined with blank lines, then — only when at least one
relation exists — a `// Relations` banner and one relations block per
participating table.  `tableVarMap` maps table ids to sanitized variable
names; entries are consed so that a later table with the same id would
shadow an earlier one, like JS object assignment. -/
def exportToDrizzle (st : SchemaState) : String :=
  let header := "import \x7b pgTable, text, integer, boolean, timestamp, date, jsonb, varchar, serial \x7d from 'drizzle-orm/pg-core'\n"
    ++ "import \x7b relations \x7d from 'drizzle-orm'\n\n"
  let tableVarMap := st.tables.foldl (fun m t => (t.id, sanitizeVarName t.name) :: m) []
  let code := header ++ String.intercalate "\n" (st.tables.map genTableDef) ++ "\n"
  if st.relations.length > 0 then
    code ++ "// Relations\n\n" ++
      String.join (st.tables.map (genRelationsBlock st.tables st.relations tableVarMap))
  else code

/-! ## Parser: regex primitives

The parser locates declarations with a handful of fixed JS regexes.  Each
regex is modelled by a deterministic matcher over a character list: `eat…`
functions consume one regex atom and return the remaining characters, and
`findAllMatches` replays the `regex.exec` loop (leftmost match at or after
the previous match end).  Backtracking never matters for these patterns:
every `\s*`, `\w+` or `[^'"]+` atom is followed by a character it can never
consume, so the greedy parse is the only parse. -/

/-- JS regex `\w` character class. -/
def isWordChar (c : Char) : Bool := c.isAlpha || c.isDigit || c = '_'

/-- Consume a literal character-list prefix. -/
def eatLit : List Char → List Char → Option (List Char)
  | [], cs => some cs
  | _ :: _, [] => none
  | p :: ps, c :: cs => if c = p then eatLit ps cs else none

/-- Consume a literal string prefix. -/
def eatStr (pat : String) (cs : List Char) : Option (List Char) := eatLit pat.data cs

/-- Consume `\s*`. -/
def eatWs : List Char → List Char
  | [] => []
  | c :: rest => if c.isWhitespace then eatWs rest else c :: rest

/-- Consume `\s+`. -/
def eatWs1 : List Char → Option (List Char)
  | [] => none
  | c :: rest => if c.isWhitespace then some (eatWs rest) else none

/-- Consume `\w*`, returning the consumed characters and the rest. -/
def eatWordChars : List Char → List Char × List Char
  | [] => ([], [])
  | c :: rest =>
    if isWordChar c then
      let (w, r) := eatWordChars rest
      (c :: w, r)
    else ([], c :: rest)

/-- Consume `(\w+)`. -/
def eatWord1 : List Char → Option (String × List Char)
  | [] => none
  | c :: rest =>
    if isWordChar c then
      some (String.mk (c :: (eatWordChars rest).1), (eatWordChars rest).2)
    else none

/-- Consume `[^'"]*`, returning the consumed characters and the rest. -/
def eatNonQuoteChars : List Char → List Char × List Char
  | [] => ([], [])
  | c :: rest =>
    if c = singleQuote || c = doubleQuote then ([], c :: rest)
    else
      let (w, r) := eatNonQuoteChars rest
      (c :: w, r)

/-- Consume `['"]([^'"]+)['"]` (either quote may close either quote, exactly
as the JS character classes allow). -/
def eatQuoted (cs : List Char) : Option (String × List Char) :=
  match cs with
  | [] => none
  | c :: rest =>
    if c = singleQuote || c = doubleQuote then
      match eatNonQuoteChars rest with
      | ([], _) => none
      | (w, r) =>
        match r with
        | c2 :: r2 =>
          if c2 = singleQuote || c2 = doubleQuote then some (String.mk w, r2) else none
        | [] => none
    else none

/-- Replay of a global-regex `exec` loop: at each position try the matcher;
on a match of length `len` record `(capture, position, len)` and resume at
the match end, otherwise advance one character.  The matchers used here
always consume at least one character, so fuel `cs.length` is enough. -/
def findAllAux (f : List Char → Option (α × Nat)) (fuel : Nat) (cs : List Char) (pos : Nat) :
    List (α × Nat × Nat) :=
  match fuel, cs with
  | _, [] => []
  | 0, _ :: _ => []
  | fuel + 1, _ :: rest =>
    match f cs with
    | some (a, len) => (a, pos, len) :: findAllAux f fuel (cs.drop len) (pos + len)
    | none => findAllAux f fuel rest (pos + 1)

/-- All matches of a matcher in a character list, `regex.exec`-style. -/
def findAllMatches (f : List Char → Option (α × Nat)) (cs : List Char) :
    List (α × Nat × Nat) :=
  findAllAux f cs.length cs 0

/-- First match of a matcher at any position (`String.prototype.match`
without the global flag). -/
def findFirstMatch (f : List Char → Option α) : List Char → Option α
  | [] => none
  | c :: rest =>
    match f (c :: rest) with
    | some a => some a
    | none => findFirstMatch f rest

/-! ## Parser: declaration matchers (the regexes of useSchema.ts) -/

/-- Matcher for `/export\s+const\s+(\w+)\s*=\s*pgTable\s*\(/` (line 1018),
returning the captured variable name and the match length. -/
def matchTableStartAt (cs : List Char) : Option (String × Nat) := do
  let r1 ← eatStr "export" cs
  let r2 ← eatWs1 r1
  let r3 ← eatStr "const" r2
  let r4 ← eatWs1 r3
  let (v, r5) ← eatWord1 r4
  let r6 ← eatStr "=" (eatWs r5)
  let r7 ← eatStr "pgTable" (eatWs r6)
  let r8 ← eatStr "(" (eatWs r7)
  return (v, cs.length - r8.length)

/-- Lazy tail of the enum regex: `([\s\S]*?)\]\s*\)` — the shortest prefix
whose next character is `]` followed by optional whitespace and `)`;
returns the captured raw values text and the rest after `)`. -/
def eatLazyValues : List Char → List Char → Option (String × List Char)
  | [], _ => none
  | c :: rest, acc =>
    if c = ']' then
      match eatStr ")" (eatWs rest) with
      | some r2 => some (String.mk acc.reverse, r2)
      | none => eatLazyValues rest (c :: acc)
    else eatLazyValues rest (c :: acc)

/-- Matcher for the enum regex (line 1003):
`/export\s+const\s+(\w+)\s*=\s*pgEnum\(\s*['"]([^'"]+)['"]\s*,\s*\[([\s\S]*?)\]\s*\)\s*;?/`. -/
def matchEnumAt (cs : List Char) : Option ((String × String × String) × Nat) := do
  let r1 ← eatStr "export" cs
  let r2 ← eatWs1 r1
  let r3 ← eatStr "const" r2
  let r4 ← eatWs1 r3
  let (enumVar, r5) ← eatWord1 r4
  let r6 ← eatStr "=" (eatWs r5)
  let r7 ← eatStr "pgEnum(" (eatWs r6)
  let (enumName, r8) ← eatQuoted (eatWs r7)
  let r9 ← eatStr "," (eatWs r8)
  let r10 ← eatStr "[" (eatWs r9)
  let (valuesRaw, r11) ← eatLazyValues r10 []
  let r12 := eatWs r11
  let r13 := (eatStr ";" r12).getD r12
  return ((enumVar, enumName, valuesRaw), cs.length - r13.length)

/-- `matchAll(/['"]([^'"]+)['"]/g)` over the raw enum-values text. -/
def extractQuotedStrings (s : String) : List String :=
  (findAllMatches
      (fun cs => (eatQuoted cs).map (fun p => (p.1, cs.length - p.2.length)))
      s.data).map (fun m => m.1)

/-- Declared enum: stored name and value list. -/
structure EnumInfo where
  enumName : String
  values : List String
deriving DecidableEq

/-- The `enumVarMap` built by the enum loop (lines 1002-1015); consing
models JS property overwrite, `List.lookup` finds the newest entry. -/
def extractEnums (cs : List Char) : List (String × EnumInfo) :=
  (findAllMatches matchEnumAt cs).foldl
    (fun m x =>
      let enumVar := x.1.1
      let enumName := x.1.2.1
      let values := (extractQuotedStrings x.1.2.2).filter (fun v => v.length != 0)
      if enumVar != "" && enumName != "" then (enumVar, ⟨enumName, values⟩) :: m else m)
    []

/-- Matcher for `/^\s*['"]([^'"]+)['"]\s*,/` — the leading table-name string
of the `pgTable` argument list (line 1030). -/
def matchLeadingQuotedComma (cs : List Char) : Option String := do
  let (name, r1) ← eatQuoted (eatWs cs)
  let _ ← eatStr "," (eatWs r1)
  return name

/-- Matcher for `/^\s*(\w+)\s*:\s*([\s\S]+)$/` — one column entry, returning
the property name and the raw expression text (line 1050). -/
def entryHead (entry : String) : Option (String × String) :=
  match eatWord1 (eatWs entry.data) with
  | none => none
  | some (w, r1) =>
    match eatWs r1 with
    | [] => none
    | c :: r2 => if c = ':' && r2.length != 0 then some (w, String.mk r2) else none

/-- Matcher for `/^\s*([A-Za-z_]\w*)\s*\(/` — the leading call identifier of
a column expression (line 1056). -/
def leadingCallIdent (expr : String) : Option String :=
  match eatWs expr.data with
  | [] => none
  | c :: rest =>
    if c.isAlpha || c = '_' then
      let (w, r) := eatWordChars rest
      match eatWs r with
      | c2 :: _ => if c2 = '(' then some (String.mk (c :: w)) else none
      | [] => none
    else none

/-- Matcher for `/\.references\(\s*\(\s*\)\s*=>\s*(\w+)\.(\w+)\s*\)/`
(line 1083), at the current position. -/
def matchReferencesAt (cs : List Char) : Option (String × String) := do
  let r1 ← eatStr ".references(" cs
  let r2 ← eatStr "(" (eatWs r1)
  let r3 ← eatStr ")" (eatWs r2)
  let r4 ← eatStr "=>" (eatWs r3)
  let (tv, r5) ← eatWord1 (eatWs r4)
  let r6 ← eatStr "." r5
  let (cp, r7) ← eatWord1 r6
  let _ ← eatStr ")" (eatWs r7)
  return (tv, cp)

/-- `expr.match(referencesRegex)` — first inline foreign-key reference in a
column expression. -/
def extractInlineRef (expr : String) : Option (String × String) :=
  findFirstMatch matchReferencesAt expr.data

/-! ## Parser: column interpretation and table extraction (lines 811-1109) -/

/-- `mapDrizzleTypeToInternal(drizzleType)` (useSchema.ts lines 812-825). -/
def mapDrizzleTypeToInternal (drizzleType : String) : String :=
  if drizzleType = "integer" then "integer"
  else if drizzleType = "serial" then "integer"
  else if drizzleType = "varchar" then "varchar"
  else if drizzleType = "text" then "text"
  else if drizzleType = "decimal" then "decimal"
  else if drizzleType = "boolean" then "boolean"
  else if drizzleType = "timestamp" then "timestamp"
  else if drizzleType = "date" then "date"
  else if drizzleType = "jsonb" then "json"
  else "text"

/-- One pending inline foreign-key reference (useSchema.ts lines 834-839):
the referenced (`from`) side and the referencing (`to`) side, by variable
and property name. -/
structure PendingRef where
  fromTableVar : String
  fromColumnName : String
  toTableVar : String
  toColumnName : String
deriving DecidableEq

/-- Interpretation of one column entry (the body of the entry loop, lines
1049-1095): split `prop: expr`, read the leading call identifier, classify
the modifier flags by substring tests (`serial` forcing not-null and
primary-key), resolve the type through the enum map, the `serial` keyword
or the keyword table, and extract an optional inline reference target.
Returns the column (with the next fresh column id) or `none` when the
entry is skipped. -/
def interpretColumnEntry (enumVarMap : List (String × EnumInfo)) (columnCounter : Nat)
    (entry : String) : Option (Column × Option (String × String)) :=
  match entryHead entry with
  | none => none
  | some (colProp, rawExpr) =>
    let expr := trimStr rawExpr
    if colProp = "" || expr = "" then none
    else
      match leadingCallIdent expr with
      | none => none
      | some baseType =>
        let isSerial := baseType = "serial"
        let isPrimaryKey := containsSubstr expr ".primaryKey()" || isSerial
        let isNotNull := containsSubstr expr ".notNull()" || isSerial
        let isUnique := containsSubstr expr ".unique()"
        let colType :=
          match List.lookup baseType enumVarMap with
          | some info => "enum:" ++ info.enumName
          | none => if isSerial then "integer" else mapDrizzleTypeToInternal baseType
        some ({ id := "col-" ++ toString (columnCounter + 1), name := colProp,
                type := colType, nullable := !isNotNull, primaryKey := isPrimaryKey,
                unique := isUnique, autoIncrement := isSerial },
              extractInlineRef expr)

/-- Value registered in `tableVarMap` (line 832). -/
structure TableVarInfo where
  tableId : String
  name : String
deriving DecidableEq

/-- The accumulating state of the table-extraction loop: extracted tables,
pending inline references, the declaration-variable map and the table and
column id counters. -/
structure ExtractState where
  newTables : List Table
  pendingRefRelations : List PendingRef
  tableVarMap : List (String × TableVarInfo)
  tableCounter : Nat
  columnCounter : Nat
deriving DecidableEq

/-- Body of the table loop (lines 1020-1109) for one `pgTable` regex match
`(tableVar, matchPos, matchLen)`: find the matching close paren, read the
leading table-name string, find the first `{` of the argument text, find
its matching `}`, split the column body at top level and interpret each
entry; a failure at any step skips the declaration (`continue`). -/
def processTableMatch (code : List Char) (enumVarMap : List (String × EnumInfo))
    (st : ExtractState) (m : String × Nat × Nat) : ExtractState :=
  let tableVar := m.1
  let openParenPos := m.2.1 + m.2.2 - 1
  if tableVar = "" then st
  else
    match scanToMatchingChars code openParenPos '(' ')' with
    | none => st
    | some closeParenPos =>
      let argsText := sliceStr code (openParenPos + 1) closeParenPos
      match matchLeadingQuotedComma argsText.data with
      | none => st
      | some tableName =>
        if tableName = "" then st
        else
          match argsText.data.findIdx? (fun c => c = '{') with
          | none => st
          | some bracePosInArgs =>
            let bracePosInCode := openParenPos + 1 + bracePosInArgs
            match scanToMatchingChars code bracePosInCode '{' '}' with
            | none => st
            | some closeBracePos =>
              let columnsStr := sliceStr code (bracePosInCode + 1) closeBracePos
              let tableId := "table-" ++ toString (st.tableCounter + 1)
              let folded := (splitTopLevelComma columnsStr).foldl
                (fun (p : List Column × List PendingRef × Nat) entry =>
                  match interpretColumnEntry enumVarMap p.2.2 entry with
                  | none => p
                  | some (col, ref?) =>
                    (p.1 ++ [col],
                     (match ref? with
                      | some (rtv, rcp) => p.2.1 ++ [⟨rtv, rcp, tableVar, col.name⟩]
                      | none => p.2.1),
                     p.2.2 + 1))
                ([], st.pendingRefRelations, st.columnCounter)
              { newTables := st.newTables ++
                  [{ id := tableId, name := tableName,
                     position :=
                       { x := 100 + Int.ofNat (st.newTables.length % 5) * 400,
                         y := 100 + Int.ofNat (st.newTables.length / 5) * 300 },
                     width := 350, columns := folded.1 }],
                pendingRefRelations := folded.2.1,
                tableVarMap := (tableVar, ⟨tableId, tableName⟩) :: st.tableVarMap,
                tableCounter := st.tableCounter + 1,
                columnCounter := folded.2.2 }

/-- The whole table-extraction loop, starting from the reset counters. -/
def extractTables (code : List Char) (enumVarMap : List (String × EnumInfo)) :
    ExtractState :=
  (findAllMatches matchTableStartAt code).foldl (processTableMatch code enumVarMap)
    { newTables := [], pendingRefRelations := [], tableVarMap := [],
      tableCounter := 0, columnCounter := 0 }

/-! ## Parser: relation synthesis (lines 846-860, 1115-1225) -/

/-- A candidate relation before deduplication and id assignment
(`Omit<Relation, 'id'>`). -/
structure RelCand where
  fromTableId : String
  fromColumnId : String
  toTableId : String
  toColumnId : String
  type : String
deriving DecidableEq

/-- The duplicate test of `addRelationIfMissing` (lines 847-857): an
existing relation matches a candidate when it connects the same column
pair directly or with the from/to sides swapped. -/
def relMatchesCand (r : Relation) (rel : RelCand) : Bool :=
  (r.fromTableId = rel.fromTableId && r.fromColumnId = rel.fromColumnId &&
   r.toTableId = rel.toTableId && r.toColumnId = rel.toColumnId) ||
  (r.fromTableId = rel.toTableId && r.fromColumnId = rel.toColumnId &&
   r.toTableId = rel.fromTableId && r.toColumnId = rel.fromColumnId)

/-- `addRelationIfMissing(rel)` (lines 846-860): drop the candidate when a
relation with the same undirected column pair already exists, otherwise
push it with the next fresh relation id (the relation counter always
equals the number of relations pushed so far). -/
def addRelationIfMissing (newRelations : List Relation) (rel : RelCand) : List Relation :=
  if newRelations.any (fun r => relMatchesCand r rel) then newRelations
  else
    newRelations ++
      [{ id := "rel-" ++ toString (newRelations.length + 1),
         fromTableId := rel.fromTableId, fromColumnId := rel.fromColumnId,
         toTableId := rel.toTableId, toColumnId := rel.toColumnId, type := rel.type }]

/-- Resolution of one pending inline reference (the loop body of lines
1116-1137): both variables through `tableVarMap`, both tables by id, both
columns by name; any failure drops the reference, otherwise the candidate
relation points from the reference target to the foreign-key column, with
cardinality decided by the foreign-key column's `unique` flag. -/
def resolvePendingRef (tableVarMap : List (String × TableVarInfo))
    (newTables : List Table) (pending : PendingRef) : Option RelCand := do
  let referencedTable ← List.lookup pending.fromTableVar tableVarMap
  let referencingTable ← List.lookup pending.toTableVar tableVarMap
  let fromTable ← newTables.find? (fun t => t.id = referencedTable.tableId)
  let toTable ← newTables.find? (fun t => t.id = referencingTable.tableId)
  let fromCol ← fromTable.columns.find? (fun c => c.name = pending.fromColumnName)
  let toCol ← toTable.columns.find? (fun c => c.name = pending.toColumnName)
  return { fromTableId := fromTable.id, fromColumnId := fromCol.id,
           toTableId := toTable.id, toColumnId := toCol.id,
           type := if toCol.unique then "one-to-one" else "one-to-many" }

/-- Matcher for `/export\s+const\s+(\w+)Relations\s*=\s*relations\s*\(/`
(line 1140).  The maximal identifier must end in `Relations` with a
non-empty prefix: a shorter greedy capture would leave a word character
where the regex expects `\s*=`. -/
def matchRelationsStartAt (cs : List Char) : Option (String × Nat) := do
  let r1 ← eatStr "export" cs
  let r2 ← eatWs1 r1
  let r3 ← eatStr "const" r2
  let r4 ← eatWs1 r3
  let (w, r5) ← eatWord1 r4
  if endsWithStr w "Relations" && w.length > 9 then
    let r6 ← eatStr "=" (eatWs r5)
    let r7 ← eatStr "relations" (eatWs r6)
    let r8 ← eatStr "(" (eatWs r7)
    return (dropRightStr w 9, cs.length - r8.length)
  else none

/-- Matcher for `/^\s*(\w+)\s*,/` — the base-table variable of a relations
block (line 1148). -/
def matchLeadingWordComma (cs : List Char) : Option String := do
  let (w, r1) ← eatWord1 (eatWs cs)
  let _ ← eatStr "," (eatWs r1)
  return w

/-- Captures of the `one(...)` call regex (lines 1159-1160). -/
structure OneCall where
  targetTableVar : String
  fieldsTableVar : String
  fkColProp : String
  refTableVar : String
  refColProp : String
deriving DecidableEq

/-- Consume `\[\s*(\w+)\.(\w+)\s*\]` — the bracketed `table.column` pair
shared by the `fields:` and `references:` parts of the `one(...)` regex. -/
def eatBracketedPair (cs : List Char) : Option (String × String × List Char) :=
  match eatStr "[" cs with
  | none => none
  | some r6 =>
  match eatWord1 (eatWs r6) with
  | none => none
  | some (tv, r7) =>
  match eatStr "." r7 with
  | none => none
  | some r8 =>
  match eatWord1 r8 with
  | none => none
  | some (cp, r9) =>
  match eatStr "]" (eatWs r9) with
  | none => none
  | some r10 => some (tv, cp, r10)

/-- Matcher for the `one(target, { fields: [a.b], references: [c.d] })`
regex (lines 1159-1160). -/
def matchOneCallAt (cs : List Char) : Option (OneCall × Nat) :=
  match eatStr "one(" cs with
  | none => none
  | some r1 =>
  match eatWord1 (eatWs r1) with
  | none => none
  | some (target, r2) =>
  match eatStr "," (eatWs r2) with
  | none => none
  | some r3 =>
  match eatStr "\x7b" (eatWs r3) with
  | none => none
  | some r4 =>
  match eatStr "fields:" (eatWs r4) with
  | none => none
  | some r5 =>
  match eatBracketedPair (eatWs r5) with
  | none => none
  | some (ftv, fcp, r10) =>
  match eatStr "," (eatWs r10) with
  | none => none
  | some r11 =>
  match eatStr "references:" (eatWs r11) with
  | none => none
  | some r12 =>
  match eatBracketedPair (eatWs r12) with
  | none => none
  | some (rtv, rcp, r17) =>
  match eatStr "\x7d" (eatWs r17) with
  | none => none
  | some r18 =>
  match eatStr ")" (eatWs r18) with
  | none => none
  | some r19 => some (⟨target, ftv, fcp, rtv, rcp⟩, cs.length - r19.length)

/-- Matcher for `/many\(\s*(\w+)\s*\)/` (line 1194). -/
def matchManyCallAt (cs : List Char) : Option (String × Nat) := do
  let r1 ← eatStr "many(" cs
  let (target, r2) ← eatWord1 (eatWs r1)
  let r3 ← eatStr ")" (eatWs r2)
  return (target, cs.length - r3.length)

/-- Resolution of one explicit `one(...)` call (lines 1162-1191): the
`fields` side is the referencing table, the `references` side the
referenced table, independent of the call's target argument; cardinality
follows the foreign-key column's `unique` flag. -/
def resolveOneCall (tableVarMap : List (String × TableVarInfo)) (newTables : List Table)
    (oc : OneCall) : Option RelCand := do
  let referencingInfo ← List.lookup oc.fieldsTableVar tableVarMap
  let referencedInfo ← List.lookup oc.refTableVar tableVarMap
  let referencingTable ← newTables.find? (fun t => t.id = referencingInfo.tableId)
  let referencedTable ← newTables.find? (fun t => t.id = referencedInfo.tableId)
  let fkCol ← referencingTable.columns.find? (fun c => c.name = oc.fkColProp)
  let refCol ← referencedTable.columns.find? (fun c => c.name = oc.refColProp)
  return { fromTableId := referencedTable.id, fromColumnId := refCol.id,
           toTableId := referencingTable.id, toColumnId := fkCol.id,
           type := if fkCol.unique then "one-to-one" else "one-to-many" }

/-- Resolution of one heuristic `many(target)` call (lines 1196-1224): the
base table's primary-key column (or its first column) on the `from` side,
and a foreign-key column of the target found by the singularized-name
convention on the `to` side. -/
def resolveManyCall (tableVarMap : List (String × TableVarInfo)) (newTables : List Table)
    (baseTable : Table) (targetVar : String) : Option RelCand := do
  let targetInfo ← List.lookup targetVar tableVarMap
  let targetTable ← newTables.find? (fun t => t.id = targetInfo.tableId)
  let fromPK ← baseTable.columns.find? (fun c => c.primaryKey) <|> baseTable.columns.head?
  let baseName := toLowerStr baseTable.name
  let singular := if endsWithStr baseName "s" then dropRightStr baseName 1 else baseName
  let fkCandidate ←
    targetTable.columns.find? (fun c => toLowerStr c.name = singular ++ "id") <|>
    targetTable.columns.find? (fun c =>
      containsSubstr (toLowerStr c.name) singular && endsWithStr (toLowerStr c.name) "id") <|>
    targetTable.columns.find? (fun c => endsWithStr (toLowerStr c.name) "id")
  return { fromTableId := baseTable.id, fromColumnId := fromPK.id,
           toTableId := targetTable.id, toColumnId := fkCandidate.id,
           type := if fkCandidate.unique then "one-to-one" else "one-to-many" }

/-- Candidate relations contributed by the explicit relations blocks
(lines 1139-1225), in source order: for each block, all `one(...)` matches
then all `many(...)` matches. -/
def relationBlockCands (code : List Char) (tableVarMap : List (String × TableVarInfo))
    (newTables : List Table) : List RelCand :=
  (findAllMatches matchRelationsStartAt code).flatMap (fun m =>
    let openParenPos := m.2.1 + m.2.2 - 1
    match scanToMatchingChars code openParenPos '(' ')' with
    | none => []
    | some closeParenPos =>
      let argsText := sliceStr code (openParenPos + 1) closeParenPos
      match matchLeadingWordComma argsText.data with
      | none => []
      | some baseTableVar =>
        match List.lookup baseTableVar tableVarMap with
        | none => []
        | some baseTableInfo =>
          match newTables.find? (fun t => t.id = baseTableInfo.tableId) with
          | none => []
          | some baseTable =>
            ((findAllMatches matchOneCallAt argsText.data).filterMap
              (fun om => resolveOneCall tableVarMap newTables om.1)) ++
            ((findAllMatches matchManyCallAt argsText.data).filterMap
              (fun mm => resolveManyCall tableVarMap newTables baseTable mm.1)))

/-! ## Parser: importFromDrizzle (lines 828-1239) -/

/-- The `{ success, error? }` result of `importFromDrizzle`. -/
structure ImportResult where
  success : Bool
  error : Option String
deriving DecidableEq

/-- `importFromDrizzle(code)` (lines 828-1239) as a state transformer: the
incoming counters model the module-level mutable counters and are
discarded because the parse resets all three to zero (lines 841-844); the
incoming schema state is returned untouched on failure and replaced by the
freshly built tables and relations on success.  Relations are accumulated
exclusively through `addRelationIfMissing`, first from resolved inline
references, then from explicit relation blocks. -/
def importFromDrizzle (code : String) (_counters : Counters) (st : SchemaState) :
    ImportResult × Counters × SchemaState :=
  let cs := code.data
  let enumVarMap := extractEnums cs
  let ex := extractTables cs enumVarMap
  if ex.newTables.length = 0 then
    (⟨false, some "No tables found in schema. Make sure tables are defined with pgTable()"⟩,
     ⟨ex.tableCounter, ex.columnCounter, 0⟩, st)
  else
    let cands :=
      ex.pendingRefRelations.filterMap (resolvePendingRef ex.tableVarMap ex.newTables) ++
      relationBlockCands cs ex.tableVarMap ex.newTables
    let newRelations := cands.foldl addRelationIfMissing []
    (⟨true, none⟩, ⟨ex.tableCounter, ex.columnCounter, newRelations.length⟩,
     ⟨ex.newTables, newRelations⟩)

/-! ## Interactive relation validation (useSchema.ts lines 613-654) -/

/-- The `{ valid, error? }` result of `validateRelation`. -/
structure ValidationResult where
  valid : Bool
  error : Option String
deriving DecidableEq

/-- `validateRelation(fromTableId, fromColumnId, toTableId, toColumnId)`
(lines 613-654), reading the current relation list: same-table check,
(unreachable) same-column check, duplicate check, reverse-duplicate
check. -/
def validateRelation (relations : List Relation)
    (fromTableId fromColumnId toTableId toColumnId : String) : ValidationResult :=
  if fromTableId = toTableId then
    ⟨false, some "Cannot create relation within the same table"⟩
  else if fromTableId = toTableId && fromColumnId = toColumnId then
    ⟨false, some "Cannot create relation from a column to itself"⟩
  else if relations.any (fun r =>
      r.fromTableId = fromTableId && r.fromColumnId = fromColumnId &&
      r.toTableId = toTableId && r.toColumnId = toColumnId) then
    ⟨false, some "Relation already exists between these columns"⟩
  else if relations.any (fun r =>
      r.fromTableId = toTableId && r.fromColumnId = toColumnId &&
      r.toTableId = fromTableId && r.toColumnId = fromColumnId) then
    ⟨false, some "Reverse relation already exists"⟩
  else ⟨true, none⟩

/-! ## Definitions written from the specification (for comparison only) -/

/-- Modelled from the spec wording of the modifier order claim: modifier
calls “in the fixed order not-null, unique, primary-key … (primary-key
modifier omitted when auto-increment already implies it)”.  This is the
order the specification asserts; `exportModifiers` is what the code
does. -/
def specOrderModifiers (column : Column) : List String :=
  (if !column.nullable then [".notNull()"] else []) ++
  (if column.unique then [".unique()"] else []) ++
  (if column.primaryKey && !column.autoIncrement then [".primaryKey()"] else [])

/-- The undirected duplicate test between two stored relations, the
equality used by the deduplication claim. -/
def sameUndirectedPair (r1 r2 : Relation) : Bool :=
  (r1.fromTableId = r2.fromTableId && r1.fromColumnId = r2.fromColumnId &&
   r1.toTableId = r2.toTableId && r1.toColumnId = r2.toColumnId) ||
  (r1.fromTableId = r2.toTableId && r1.fromColumnId = r2.toColumnId &&
   r1.toTableId = r2.fromTableId && r1.toColumnId = r2.fromColumnId)

/-! ## Concrete fixtures used by counterexamples and witnesses -/

/-- A fully-constrained non-auto-increment column: primary key, not null,
unique. -/
def pkNotNullUniqueColumn : Column :=
  { id := "col-9", name := "sku", type := "integer", nullable := false,
    primaryKey := true, unique := true, autoIncrement := false }

/-- A schema holding one table whose single column is the canonical
auto-increment integer primary key, as the `addTable` action creates. -/
def serialPkSchema : SchemaState :=
  { tables := [{ id := "table-1", name := "t", position := ⟨0, 0⟩, width := 350,
                 columns := [{ id := "col-1", name := "id", type := "integer",
                               nullable := false, primaryKey := true, unique := true,
                               autoIncrement := true }] }],
    relations := [] }

/-- The same table as parsed back from the generated text: recognized, but
with every column lost. -/
def reimportedSerialPkTable : Table :=
  { id := "table-1", name := "t", position := ⟨100, 100⟩, width := 350, columns := [] }

/-- Fixture: a referenced table (auto-increment integer primary key). -/
def witUsersTable : Table :=
  { id := "table-1", name := "users", position := ⟨0, 0⟩, width := 350,
    columns := [{ id := "col-1", name := "id", type := "integer", nullable := false,
                  primaryKey := true, unique := true, autoIncrement := true }] }

/-- Fixture: a referencing table with a non-unique foreign-key column. -/
def witPostsTable : Table :=
  { id := "table-2", name := "posts", position := ⟨0, 0⟩, width := 350,
    columns := [{ id := "col-2", name := "user_id", type := "integer", nullable := true,
                  primaryKey := false, unique := false, autoIncrement := false }] }

/-! ## Helper lemmas -/

/-- A string built from a non-empty character list is not the empty string. -/
theorem stringMk_cons_ne_empty (c : Char) (l : List Char) : String.mk (c :: l) ≠ "" := by
  intro h
  have h2 : c :: l = [] := congrArg String.data h
  exact List.noConfusion h2

/-- The word captured by `\w+` is never empty. -/
theorem eatWord1_fst_ne_empty {cs : List Char} {w : String} {r : List Char}
    (h : eatWord1 cs = some (w, r)) : w ≠ "" := by
  cases cs with
  | nil => simp [eatWord1] at h
  | cons c rest =>
    simp only [eatWord1] at h
    split at h
    · simp only [Option.some.injEq, Prod.mk.injEq] at h
      obtain ⟨hw, -⟩ := h
      subst hw
      exact stringMk_cons_ne_empty c (eatWordChars rest).1
    · exact Option.noConfusion h

/-- The property name captured by the column-entry regex is never empty. -/
theorem entryHead_fst_ne_empty {entry colProp rest : String}
    (h : entryHead entry = some (colProp, rest)) : colProp ≠ "" := by
  unfold entryHead at h
  split at h
  · exact Option.noConfusion h
  · rename_i w r1 hE
    split at h
    · exact Option.noConfusion h
    · split at h
      · simp only [Option.some.injEq, Prod.mk.injEq] at h
        obtain ⟨hw, -⟩ := h
        exact hw ▸ eatWord1_fst_ne_empty hE
      · exact Option.noConfusion h

/-- `addRelationIfMissing` preserves the absence of duplicate undirected
column pairs. -/
theorem addRelationIfMissing_pairwise {rels : List Relation} {cand : RelCand}
    (h : rels.Pairwise (fun a b => sameUndirectedPair a b = false)) :
    (addRelationIfMissing rels cand).Pairwise
      (fun a b => sameUndirectedPair a b = false) := by
  unfold addRelationIfMissing
  split
  · exact h
  · rename_i hany
    rw [List.pairwise_append]
    refine ⟨h, ?_, ?_⟩
    · simp
    · intro a ha b hb
      simp only [List.mem_singleton] at hb
      subst hb
      rw [Bool.not_eq_true, List.any_eq_false] at hany
      have := hany a ha
      simpa [sameUndirectedPair, relMatchesCand] using this

/-- Folding candidate relations through `addRelationIfMissing` keeps the
relation list free of duplicate undirected column pairs. -/
theorem foldl_addRelationIfMissing_pairwise (cands : List RelCand) (init : List Relation)
    (h : init.Pairwise (fun a b => sameUndirectedPair a b = false)) :
    (cands.foldl addRelationIfMissing init).Pairwise
      (fun a b => sameUndirectedPair a b = false) := by
  induction cands generalizing init with
  | nil => exact h
  | cons c cs ih => exact ih _ (addRelationIfMissing_pairwise h)

/-! ## Claim theorems -/

/-- C8: `scanToMatching` returns the index at which the depth counter
seeded at 1 reaches 0; characters inside a string literal (including after
an escaped quote) or inside a line or block comment never affect the
depth, so unmatched delimiters embedded in a string with an escaped quote
do not change the returned closing index; when the text ends before the
depth reaches 0 the result is `none` rather than a crash. -/
theorem scanToMatchingSpec :
    scanToMatching "('a\\')((')z" 0 '(' ')' = some 9 ∧
    scanToMatching "(ab" 0 '(' ')' = none ∧
    scanToMatching "(a // )\n)" 0 '(' ')' = some 8 ∧
    scanToMatching "(a /* ) */ )" 0 '(' ')' = some 11 := by decide

/-- C7: `splitTopLevelComma` splits only at commas at zero
bracket/brace/paren depth outside strings and comments, trims each
segment and discards empty segments (tolerating doubled and trailing
commas): the claim's example yields exactly two segments with their
internal commas intact, protected commas stay inside their segments, and
segments that trim to nothing are dropped. -/
theorem splitTopLevelCommaSpec :
    splitTopLevelComma "a: f(1,2), b: g(\x7bx:1,y:2\x7d)" =
      ["a: f(1,2)", "b: g(\x7bx:1,y:2\x7d)"] ∧
    splitTopLevelComma "  x  ,, y ," = ["x", "y"] ∧
    splitTopLevelComma "f('a,b'), g(/* , */ h), i // ,\n, j" =
      ["f('a,b')", "g(/* , */ h)", "i // ,", "j"] ∧
    splitTopLevelComma "[a,b], (c,d)" = ["[a,b]", "(c,d)"] := by decide

/-- C2 counterexample: for a primary-key, not-null, unique,
non-auto-increment column the generator emits the modifiers in the order
`.primaryKey()`, `.notNull()`, `.unique()`, not in the claimed fixed order
not-null, unique, primary-key (`specOrderModifiers`). -/
theorem modifierOrderCounterexample :
    exportModifiers pkNotNullUniqueColumn = [".primaryKey()", ".notNull()", ".unique()"] ∧
    specOrderModifiers pkNotNullUniqueColumn =
      [".notNull()", ".unique()", ".primaryKey()"] ∧
    exportModifiers pkNotNullUniqueColumn ≠ specOrderModifiers pkNotNullUniqueColumn := by
  decide

/-- C2 (amended): for every column the emitted modifier calls appear in
the fixed order primary-key, not-null, unique — with `.primaryKey()`
present exactly when the column is a primary key whose auto-increment
flag is off, `.notNull()` exactly when the column is not nullable, and
`.unique()` exactly when it is unique. -/
theorem modifierOrderAmended (column : Column) :
    (exportModifiers column).Sublist [".primaryKey()", ".notNull()", ".unique()"] ∧
    ((".primaryKey()" ∈ exportModifiers column) ↔
      column.primaryKey = true ∧ column.autoIncrement = false) ∧
    ((".notNull()" ∈ exportModifiers column) ↔ column.nullable = false) ∧
    ((".unique()" ∈ exportModifiers column) ↔ column.unique = true) := by
  obtain ⟨i, n, t, nullable, pk, uniq, auto⟩ := column
  dsimp only [exportModifiers]
  cases nullable <;> cases pk <;> cases uniq <;> cases auto <;> decide

/-- C3: a column entry whose expression is a `serial(...)` call together
with an explicit `.notNull()`, no `.primaryKey()` and no `.unique()`
parses to nullable=false, primaryKey=true, unique=false,
autoIncrement=true and internal type integer (when no enum named `serial`
is declared). -/
theorem serialColumnNormalization (enumVarMap : List (String × EnumInfo))
    (columnCounter : Nat) (entry colProp rawExpr : String)
    (h1 : entryHead entry = some (colProp, rawExpr))
    (h2 : leadingCallIdent (trimStr rawExpr) = some "serial")
    (h3 : List.lookup "serial" enumVarMap = none)
    (h4 : containsSubstr (trimStr rawExpr) ".notNull()" = true)
    (h5 : containsSubstr (trimStr rawExpr) ".primaryKey()" = false)
    (h6 : containsSubstr (trimStr rawExpr) ".unique()" = false) :
    (interpretColumnEntry enumVarMap columnCounter entry).map
        (fun r => (r.1.nullable, r.1.primaryKey, r.1.unique, r.1.autoIncrement, r.1.type)) =
      some (false, true, false, true, "integer") := by
  have hcp : colProp ≠ "" := entryHead_fst_ne_empty h1
  have hex : trimStr rawExpr ≠ "" := by
    intro he
    rw [he] at h2
    exact absurd h2 (by decide)
  simp [interpretColumnEntry, h1, h2, h3, h4, h5, h6, hcp, hex]

/-- C3 witness: the entry `id: serial('id').notNull()` normalizes as the
claim states. -/
theorem serialColumnNormalizationWitness :
    (interpretColumnEntry [] 0 "id: serial('id').notNull()").map
        (fun r => (r.1.nullable, r.1.primaryKey, r.1.unique, r.1.autoIncrement, r.1.type)) =
      some (false, true, false, true, "integer") :=
  serialColumnNormalization [] 0 "id: serial('id').notNull()" "id"
    " serial('id').notNull()" (by decide) (by decide) (by decide) (by decide) (by decide)
    (by decide)

/-- C4: an inline foreign-key reference whose table and column endpoints
both resolve synthesizes exactly one relation whose referenced (from)
side is the reference target and whose referencing (to) side is the
foreign-key column, with cardinality one-to-one when the foreign-key
column is unique and one-to-many otherwise. -/
theorem inlineReferenceRelation (tableVarMap : List (String × TableVarInfo))
    (newTables : List Table) (pending : PendingRef) (refInfo ingInfo : TableVarInfo)
    (fromTable toTable : Table) (fromCol toCol : Column)
    (h1 : List.lookup pending.fromTableVar tableVarMap = some refInfo)
    (h2 : List.lookup pending.toTableVar tableVarMap = some ingInfo)
    (h3 : newTables.find? (fun t => t.id = refInfo.tableId) = some fromTable)
    (h4 : newTables.find? (fun t => t.id = ingInfo.tableId) = some toTable)
    (h5 : fromTable.columns.find? (fun c => c.name = pending.fromColumnName) = some fromCol)
    (h6 : toTable.columns.find? (fun c => c.name = pending.toColumnName) = some toCol) :
    resolvePendingRef tableVarMap newTables pending =
      some ⟨fromTable.id, fromCol.id, toTable.id, toCol.id,
            if toCol.unique then "one-to-one" else "one-to-many"⟩ ∧
    addRelationIfMissing []
        ⟨fromTable.id, fromCol.id, toTable.id, toCol.id,
         if toCol.unique then "one-to-one" else "one-to-many"⟩ =
      [⟨"rel-1", fromTable.id, fromCol.id, toTable.id, toCol.id,
        if toCol.unique then "one-to-one" else "one-to-many"⟩] := by
  constructor
  · simp [resolvePendingRef, h1, h2, h3, h4, h5, h6]
  · rfl

/-- C4 witness: `posts.user_id` referencing `users.id` (non-unique fk
column) yields the single one-to-many relation from `users.id` to
`posts.user_id`. -/
theorem inlineReferenceRelationWitness :
    resolvePendingRef [("users", ⟨"table-1", "users"⟩), ("posts", ⟨"table-2", "posts"⟩)]
        [witUsersTable, witPostsTable] ⟨"users", "id", "posts", "user_id"⟩ =
      some ⟨"table-1", "col-1", "table-2", "col-2", "one-to-many"⟩ ∧
    addRelationIfMissing [] ⟨"table-1", "col-1", "table-2", "col-2", "one-to-many"⟩ =
      [⟨"rel-1", "table-1", "col-1", "table-2", "col-2", "one-to-many"⟩] :=
  inlineReferenceRelation
    [("users", ⟨"table-1", "users"⟩), ("posts", ⟨"table-2", "posts"⟩)]
    [witUsersTable, witPostsTable] ⟨"users", "id", "posts", "user_id"⟩
    ⟨"table-1", "users"⟩ ⟨"table-2", "posts"⟩ witUsersTable witPostsTable
    ⟨"col-1", "id", "integer", false, true, true, true⟩
    ⟨"col-2", "user_id", "integer", true, false, false, false⟩
    rfl rfl rfl rfl rfl rfl

/-- C5: in every schema returned by a successful parse no two relations
connect the same column pair, directly or with the from/to sides swapped:
every candidate passes through `addRelationIfMissing`, which discards a
candidate whose undirected pair is already present, so declaring the same
logical relation in two ways keeps exactly one of them. -/
theorem importRelationsNoDuplicatePairs (code : String) (ctrs : Counters)
    (st : SchemaState)
    (h : (importFromDrizzle code ctrs st).1.success = true) :
    ((importFromDrizzle code ctrs st).2.2.relations).Pairwise
      (fun a b => sameUndirectedPair a b = false) := by
  by_cases hc : (extractTables code.data (extractEnums code.data)).newTables.length = 0
  · simp [importFromDrizzle, hc] at h
  · simp only [importFromDrizzle, if_neg hc]
    exact foldl_addRelationIfMissing_pairwise _ _ List.Pairwise.nil

/-- C5 witness: a successful parse of a one-table schema satisfies the
no-duplicate-pair invariant. -/
theorem importRelationsNoDuplicatePairsWitness :
    ((importFromDrizzle "export const t = pgTable('t', \x7b\x7d)" ⟨0, 0, 0⟩
        ⟨[], []⟩).2.2.relations).Pairwise
      (fun a b => sameUndirectedPair a b = false) :=
  importRelationsNoDuplicatePairs "export const t = pgTable('t', \x7b\x7d)" ⟨0, 0, 0⟩
    ⟨[], []⟩ (by decide)

/-- C6: when the text contains zero recognizable table declarations, the
parse returns failure with a descriptive message and leaves the existing
model untouched — the tables and relations collections are not replaced
and no partial model is committed. -/
theorem importNoTablesFails (code : String) (ctrs : Counters) (st : SchemaState)
    (h : (extractTables code.data (extractEnums code.data)).newTables.length = 0) :
    (importFromDrizzle code ctrs st).1 =
      ⟨false, some "No tables found in schema. Make sure tables are defined with pgTable()"⟩ ∧
    (importFromDrizzle code ctrs st).2.2 = st := by
  constructor <;> simp [importFromDrizzle, h]

/-- C6 witness: text with no `pgTable` declaration fails and preserves the
existing model. -/
theorem importNoTablesFailsWitness :
    (importFromDrizzle "const x = 1" ⟨3, 4, 5⟩ ⟨[reimportedSerialPkTable], []⟩).1 =
      ⟨false, some "No tables found in schema. Make sure tables are defined with pgTable()"⟩ ∧
    (importFromDrizzle "const x = 1" ⟨3, 4, 5⟩ ⟨[reimportedSerialPkTable], []⟩).2.2 =
      ⟨[reimportedSerialPkTable], []⟩ :=
  importNoTablesFails "const x = 1" ⟨3, 4, 5⟩ ⟨[reimportedSerialPkTable], []⟩ (by decide)

/-- C9: `importFromDrizzle` resets the table, column and relation id
counters at the start of every parse, so its whole result — including
every freshly minted entity id — is independent of the incoming counter
state, and repeated invocations on the same text construct identical
schemas with no identifier state leaking between calls. -/
theorem importCounterIndependent (code : String) (c1 c2 : Counters) (st : SchemaState) :
    importFromDrizzle code c1 st = importFromDrizzle code c2 st := rfl

/-- C10: `validateRelation` rejects any proposed relation whose two
endpoints lie in the same table: whenever the from and to table ids are
equal it returns invalid with an error message, even when the two column
ids differ. -/
theorem validateRelationSameTable (relations : List Relation)
    (fromTableId fromColumnId toTableId toColumnId : String)
    (h : fromTableId = toTableId) :
    validateRelation relations fromTableId fromColumnId toTableId toColumnId =
      ⟨false, some "Cannot create relation within the same table"⟩ := by
  simp [validateRelation, h]

/-- C10 witness: same table, two different column ids, empty relation
list. -/
theorem validateRelationSameTableWitness :
    validateRelation [] "table-1" "col-1" "table-1" "col-2" =
      ⟨false, some "Cannot create relation within the same table"⟩ :=
  validateRelationSameTable [] "table-1" "col-1" "table-1" "col-2" rfl

set_option maxRecDepth 20000 in
/-- C1: the generator/parser round trip is not schema-preserving: the
generator writes an auto-increment integer column as the bare keyword
`serial` with no parentheses, while the parser's leading-identifier match
requires `identifier(`, so the entry is skipped — re-importing the
generated text of a schema whose only column is the canonical
auto-increment primary key succeeds but yields the table with zero
columns. -/
theorem roundTripDropsSerialColumn :
    (importFromDrizzle (exportToDrizzle serialPkSchema) ⟨0, 0, 0⟩ ⟨[], []⟩) =
      (⟨true, none⟩, ⟨1, 0, 0⟩, ⟨[reimportedSerialPkTable], []⟩) ∧
    serialPkSchema.tables.map (fun t => t.columns.length) = [1] ∧
    reimportedSerialPkTable.columns.length = 0 := by decide
